import Mathlib

/-!
Verification of the RPC connector factory of oerplib.

The embedded code is `oerplib/rpc/__init__.py`: the registry `PROTOCOLS`,
the factory `get_connector` (the spec calls it `create_connector`) and the
JSON factory `get_json_connector` (`create_json_connector`).  The spec's
protocol identifiers map to the source's as follows: `plain-text-rpc` is
`xmlrpc`, `plain-text-rpc+tls` is `xmlrpc+ssl`, `binary-rpc` is `netrpc`.
The spec's `UnsupportedProtocol` error is the source's
`oerplib.rpc.error.ConnectorError`.

The modules `oerplib.rpc.connector` and `oerplib.rpc.error` are not part of
the sources; where their behaviour matters, definitions below are modelled
from the spec and say so in their doc comments.
-/

namespace Oerplib

/-- Connector classes of `oerplib.rpc.connector`.  The module is not under
`src/`; per the spec (§4.1, "Side effect: none beyond object construction"),
constructing a connector only stores the arguments, so each class is one
constructor holding `(server, port, timeout, version)`. -/
inductive Connector where
  | ConnectorXMLRPC (server : String) (port : Int) (timeout : Int) (version : Option String)
  | ConnectorXMLRPCSSL (server : String) (port : Int) (timeout : Int) (version : Option String)
  | ConnectorNetRPC (server : String) (port : Int) (timeout : Int) (version : Option String)
  | ConnectorJSONRPC (server : String) (port : Int) (timeout : Int) (version : Option String)
  | ConnectorJSONRPCSSL (server : String) (port : Int) (timeout : Int) (version : Option String)
  deriving DecidableEq, Repr

/-- The exception `oerplib.rpc.error.ConnectorError` (the spec's
`UnsupportedProtocol`), carrying the formatted message. -/
structure ConnectorError where
  msg : String
  deriving DecidableEq, Repr

/-- The fixed registry `PROTOCOLS` of `oerplib/rpc/__init__.py` (lines 35-39),
mapping each protocol identifier to its connector class, in source order. -/
def PROTOCOLS : List (String × (String → Int → Int → Option String → Connector)) :=
  [("xmlrpc", Connector.ConnectorXMLRPC),
   ("xmlrpc+ssl", Connector.ConnectorXMLRPCSSL),
   ("netrpc", Connector.ConnectorNetRPC)]

/-- Python rendering of one registry key inside the formatted error message:
`str.format` prints the elements of `PROTOCOLS.keys()` with single quotes. -/
def pyStrRepr (s : String) : String := "'" ++ s ++ "'"

/-- Python rendering of the key list of the registry, as interpolated by
`txt.format(protocol, PROTOCOLS.keys())` at line 63 of the source. -/
def pyKeysRepr (keys : List String) : String :=
  "[" ++ String.intercalate ", " (keys.map pyStrRepr) ++ "]"

/-- The error message built at lines 61-63 of `oerplib/rpc/__init__.py` for an
unsupported protocol identifier. -/
def unsupported_protocol_msg (protocol : String) : String :=
  "The protocol '" ++ protocol ++ "' is not supported. " ++
    "Please choose a protocol among these ones: " ++
    pyKeysRepr (PROTOCOLS.map Prod.fst)

/-- `get_connector(server, port=8069, protocol='xmlrpc', timeout=120,
version=None)` from `oerplib/rpc/__init__.py` lines 42-65: raises
`ConnectorError` when `protocol` is not a key of `PROTOCOLS`, otherwise
returns `PROTOCOLS[protocol](server, port, timeout, version)`. -/
def get_connector (server : String) (port : Int) (protocol : String)
    (timeout : Int) (version : Option String) : Except ConnectorError Connector :=
  match PROTOCOLS.lookup protocol with
  | none => .error ⟨unsupported_protocol_msg protocol⟩
  | some cls => .ok (cls server port timeout version)

/-- Declared default of the `port` parameter of `get_connector` (line 42). -/
def get_connector_default_port : Int := 8069

/-- Declared default of the `protocol` parameter of `get_connector` (line 42). -/
def get_connector_default_protocol : String := "xmlrpc"

/-- Declared default of the `timeout` parameter of `get_connector` (line 43). -/
def get_connector_default_timeout : Int := 120

/-- Declared default of the `version` parameter of `get_connector` (line 43). -/
def get_connector_default_version : Option String := none

/-- The call `get_connector(server)` with every optional parameter omitted,
i.e. filled in with the declared defaults. -/
def get_connector_only_server (server : String) : Except ConnectorError Connector :=
  get_connector server get_connector_default_port get_connector_default_protocol
    get_connector_default_timeout get_connector_default_version

/-- `get_json_connector(server, port=8069, timeout=120, version=None,
ssl=False)` from `oerplib/rpc/__init__.py` lines 68-77: returns the SSL
JSON-RPC connector when `ssl` is set, the plain one otherwise. -/
def get_json_connector (server : String) (port : Int) (timeout : Int)
    (version : Option String) (ssl : Bool) : Connector :=
  if ssl then Connector.ConnectorJSONRPCSSL server port timeout version
  else Connector.ConnectorJSONRPC server port timeout version

/-- Declared default of the `port` parameter of `get_json_connector` (line 68). -/
def get_json_connector_default_port : Int := 8069

/-- Declared default of the `timeout` parameter of `get_json_connector` (line 68). -/
def get_json_connector_default_timeout : Int := 120

/-- Declared default of the `version` parameter of `get_json_connector` (line 69). -/
def get_json_connector_default_version : Option String := none

/-- Declared default of the `ssl` parameter of `get_json_connector` (line 69). -/
def get_json_connector_default_ssl : Bool := false

/-- The call `get_json_connector(server)` with every optional parameter
omitted, i.e. filled in with the declared defaults. -/
def get_json_connector_only_server (server : String) : Connector :=
  get_json_connector server get_json_connector_default_port
    get_json_connector_default_timeout get_json_connector_default_version
    get_json_connector_default_ssl

/-- A network side effect, for instrumenting construction with the I/O it
performs. -/
inductive NetworkEvent where
  | request (host : String) (port : Int)
  deriving DecidableEq, Repr

/-- Modelled from the spec: `connector.ConnectorXMLRPC.__init__` is not under
`src/`; per spec §4.1 construction has no side effect beyond object
construction, so it returns the connector together with an empty network
trace. -/
def ConnectorXMLRPC_new (server : String) (port : Int) (timeout : Int)
    (version : Option String) : Connector × List NetworkEvent :=
  (Connector.ConnectorXMLRPC server port timeout version, [])

/-- Modelled from the spec: `connector.ConnectorXMLRPCSSL.__init__` is not
under `src/`; per spec §4.1 construction performs no network I/O. -/
def ConnectorXMLRPCSSL_new (server : String) (port : Int) (timeout : Int)
    (version : Option String) : Connector × List NetworkEvent :=
  (Connector.ConnectorXMLRPCSSL server port timeout version, [])

/-- Modelled from the spec: `connector.ConnectorNetRPC.__init__` is not under
`src/`; per spec §4.1 construction performs no network I/O. -/
def ConnectorNetRPC_new (server : String) (port : Int) (timeout : Int)
    (version : Option String) : Connector × List NetworkEvent :=
  (Connector.ConnectorNetRPC server port timeout version, [])

/-- Modelled from the spec: `connector.ConnectorJSONRPC.__init__` is not under
`src/`; per spec §4.1 construction performs no network I/O. -/
def ConnectorJSONRPC_new (server : String) (port : Int) (timeout : Int)
    (version : Option String) : Connector × List NetworkEvent :=
  (Connector.ConnectorJSONRPC server port timeout version, [])

/-- Modelled from the spec: `connector.ConnectorJSONRPCSSL.__init__` is not
under `src/`; per spec §4.1 construction performs no network I/O. -/
def ConnectorJSONRPCSSL_new (server : String) (port : Int) (timeout : Int)
    (version : Option String) : Connector × List NetworkEvent :=
  (Connector.ConnectorJSONRPCSSL server port timeout version, [])

/-- The registry `PROTOCOLS` with each class replaced by its
effect-instrumented constructor, for tracking the I/O of the factory. -/
def PROTOCOLS_traced :
    List (String × (String → Int → Int → Option String → Connector × List NetworkEvent)) :=
  [("xmlrpc", ConnectorXMLRPC_new),
   ("xmlrpc+ssl", ConnectorXMLRPCSSL_new),
   ("netrpc", ConnectorNetRPC_new)]

/-- `get_connector` instrumented with the network trace of everything it
evaluates: the registry test, the message formatting and the class
construction.  The factory body itself (lines 60-65) performs no I/O of its
own; the constructors' traces come from `PROTOCOLS_traced`. -/
def get_connector_traced (server : String) (port : Int) (protocol : String)
    (timeout : Int) (version : Option String) :
    Except ConnectorError Connector × List NetworkEvent :=
  match PROTOCOLS_traced.lookup protocol with
  | none => (.error ⟨unsupported_protocol_msg protocol⟩, [])
  | some mk =>
      let r := mk server port timeout version
      (.ok r.1, r.2)

/-- `get_json_connector` instrumented with the network trace of the
construction it performs. -/
def get_json_connector_traced (server : String) (port : Int) (timeout : Int)
    (version : Option String) (ssl : Bool) : Connector × List NetworkEvent :=
  if ssl then ConnectorJSONRPCSSL_new server port timeout version
  else ConnectorJSONRPC_new server port timeout version

/-- Modelled from the spec: the connector's lazily resolved `APIVersion`
(§4.2 "Version resolution"); `none` is the spec's `unset`/`Unresolved`. -/
structure VersionCache where
  version : Option String
  deriving DecidableEq, Repr

/-- Modelled from the spec (§4.2): the version-resolution step performed by
one remote call on a connector whose server's newest supported version is
`newest`.  If the cached version is unset, the connector probes the server
once and pins the result; otherwise it uses the pinned version.  Returns the
version used for the call, the updated cache, and the number of version
probes this call performed. -/
def call_resolving_version (newest : String) (st : VersionCache) :
    String × VersionCache × Nat :=
  match st.version with
  | some v => (v, st, 0)
  | none => (newest, ⟨some newest⟩, 1)

/-- C1: for every protocol identifier that is not a key of the registry,
`get_connector` fails with `ConnectorError` (the spec's
`UnsupportedProtocol`) at construction time, returns no connector, and the
error message lists every supported identifier. -/
theorem c1_get_connector_unsupported (server : String) (port timeout : Int)
    (version : Option String) (protocol : String)
    (h : protocol ∉ PROTOCOLS.map Prod.fst) :
    get_connector server port protocol timeout version =
      .error ⟨unsupported_protocol_msg protocol⟩ ∧
    ∀ k ∈ PROTOCOLS.map Prod.fst,
      k.data <:+: (unsupported_protocol_msg protocol).data := by
  simp only [PROTOCOLS, List.map_cons, List.map_nil, List.mem_cons,
    List.not_mem_nil, or_false, not_or] at h
  obtain ⟨h1, h2, h3⟩ := h
  have b1 : (protocol == "xmlrpc") = false := beq_eq_false_iff_ne.mpr h1
  have b2 : (protocol == "xmlrpc+ssl") = false := beq_eq_false_iff_ne.mpr h2
  have b3 : (protocol == "netrpc") = false := beq_eq_false_iff_ne.mpr h3
  constructor
  · simp [get_connector, PROTOCOLS, List.lookup, b1, b2, b3]
  · intro k hk
    have hmsg : (unsupported_protocol_msg protocol).data =
        ("The protocol '" ++ protocol ++ "' is not supported. " ++
          "Please choose a protocol among these ones: ").data ++
        (pyKeysRepr (PROTOCOLS.map Prod.fst)).data := by
      rw [unsupported_protocol_msg, String.data_append]
    rw [hmsg]
    have hsub : k.data <:+: (pyKeysRepr (PROTOCOLS.map Prod.fst)).data := by
      simp only [PROTOCOLS, List.map_cons, List.map_nil, List.mem_cons,
        List.not_mem_nil, or_false] at hk
      rcases hk with hk | hk | hk <;> subst hk <;> decide
    exact hsub.trans (List.suffix_append _ _).isInfix

/-- Witness for C1 at the spec's example identifier `carrier-pigeon`. -/
theorem c1_witness :
    "carrier-pigeon" ∉ PROTOCOLS.map Prod.fst ∧
    (get_connector "localhost" 8069 "carrier-pigeon" 120 none =
        .error ⟨unsupported_protocol_msg "carrier-pigeon"⟩ ∧
      ∀ k ∈ PROTOCOLS.map Prod.fst,
        k.data <:+: (unsupported_protocol_msg "carrier-pigeon").data) :=
  ⟨by decide,
    c1_get_connector_unsupported "localhost" 8069 120 none "carrier-pigeon"
      (by decide)⟩

/-- C2: the registry holds exactly the identifiers `xmlrpc`
(plain-text-rpc), `xmlrpc+ssl` (plain-text-rpc+tls) and `netrpc`
(binary-rpc); the JSON-RPC identifiers are not keys, so `get_connector`
rejects them as unsupported. -/
theorem c2_registry_exactly_three (server : String) (port timeout : Int)
    (version : Option String) :
    PROTOCOLS.map Prod.fst = ["xmlrpc", "xmlrpc+ssl", "netrpc"] ∧
    PROTOCOLS.lookup "jsonrpc" = none ∧
    PROTOCOLS.lookup "jsonrpc+ssl" = none ∧
    get_connector server port "jsonrpc" timeout version =
      .error ⟨unsupported_protocol_msg "jsonrpc"⟩ ∧
    get_connector server port "jsonrpc+ssl" timeout version =
      .error ⟨unsupported_protocol_msg "jsonrpc+ssl"⟩ :=
  ⟨rfl, rfl, rfl, rfl, rfl⟩

/-- C3: for every identifier registered in `PROTOCOLS`, `get_connector`
returns exactly the registered class applied to
`(server, port, timeout, version)`. -/
theorem c3_get_connector_registered (server : String) (port timeout : Int)
    (version : Option String) (protocol : String)
    (cls : String → Int → Int → Option String → Connector)
    (h : (protocol, cls) ∈ PROTOCOLS) :
    get_connector server port protocol timeout version =
      .ok (cls server port timeout version) := by
  simp only [PROTOCOLS, List.mem_cons, List.not_mem_nil, or_false,
    Prod.mk.injEq] at h
  rcases h with ⟨h1, h2⟩ | ⟨h1, h2⟩ | ⟨h1, h2⟩ <;> subst h1 <;> subst h2 <;> rfl

/-- Witness for C3 at the `netrpc` registry entry. -/
theorem c3_witness :
    ("netrpc", Connector.ConnectorNetRPC) ∈ PROTOCOLS ∧
    get_connector "localhost" 8070 "netrpc" 60 (some "6.1") =
      .ok (Connector.ConnectorNetRPC "localhost" 8070 60 (some "6.1")) :=
  ⟨by simp [PROTOCOLS],
    c3_get_connector_registered "localhost" 8070 60 (some "6.1") "netrpc"
      Connector.ConnectorNetRPC (by simp [PROTOCOLS])⟩

/-- C4: `get_json_connector` returns the SSL JSON-RPC connector exactly when
its `ssl` flag is true and the plain JSON-RPC connector otherwise, in both
cases constructed over `(server, port, timeout, version)`. -/
theorem c4_get_json_connector_variant (server : String) (port timeout : Int)
    (version : Option String) :
    get_json_connector server port timeout version true =
      Connector.ConnectorJSONRPCSSL server port timeout version ∧
    get_json_connector server port timeout version false =
      Connector.ConnectorJSONRPC server port timeout version :=
  ⟨rfl, rfl⟩

/-- C5: both factories default `port` to 8069, `timeout` to 120 and
`version` to unset, and `get_json_connector` additionally defaults `ssl` to
false; a call giving only the server therefore behaves as the fully spelled
call with those values. -/
theorem c5_factory_defaults (server : String) :
    get_connector_default_port = 8069 ∧
    get_connector_default_timeout = 120 ∧
    get_connector_default_version = none ∧
    get_json_connector_default_port = 8069 ∧
    get_json_connector_default_timeout = 120 ∧
    get_json_connector_default_version = none ∧
    get_json_connector_default_ssl = false ∧
    get_connector_only_server server =
      get_connector server 8069 get_connector_default_protocol 120 none ∧
    get_json_connector_only_server server =
      get_json_connector server 8069 120 none false :=
  ⟨rfl, rfl, rfl, rfl, rfl, rfl, rfl, rfl, rfl⟩

/-- C6: neither factory performs network I/O for any input, whether the call
succeeds or fails: the instrumented traces are always empty. -/
theorem c6_factories_no_network (server : String) (port timeout : Int)
    (protocol : String) (version : Option String) (ssl : Bool) :
    (get_connector_traced server port protocol timeout version).2 = [] ∧
    (get_json_connector_traced server port timeout version ssl).2 = [] := by
  constructor
  · by_cases h1 : protocol = "xmlrpc"
    · subst h1; rfl
    by_cases h2 : protocol = "xmlrpc+ssl"
    · subst h2; rfl
    by_cases h3 : protocol = "netrpc"
    · subst h3; rfl
    have b1 : (protocol == "xmlrpc") = false := beq_eq_false_iff_ne.mpr h1
    have b2 : (protocol == "xmlrpc+ssl") = false := beq_eq_false_iff_ne.mpr h2
    have b3 : (protocol == "netrpc") = false := beq_eq_false_iff_ne.mpr h3
    simp [get_connector_traced, PROTOCOLS_traced, List.lookup, b1, b2, b3]
  · cases ssl <;> rfl

/-- C7: with the version unset, the first call probes once and pins the
server's newest version; a connector with a pinned version never probes and
keeps its pin, so two successive calls perform exactly one probe in total. -/
theorem c7_version_probe_once (newest : String) :
    (call_resolving_version newest ⟨none⟩).2.2 = 1 ∧
    (call_resolving_version newest ⟨none⟩).2.1.version = some newest ∧
    (∀ v, call_resolving_version newest ⟨some v⟩ = (v, ⟨some v⟩, 0)) ∧
    (call_resolving_version newest ⟨none⟩).2.2 +
      (call_resolving_version newest
        (call_resolving_version newest ⟨none⟩).2.1).2.2 = 1 :=
  ⟨rfl, rfl, fun _ => rfl, rfl⟩

/-- C9: the `protocol` parameter of `get_connector` defaults to `xmlrpc`, so
a call giving only the server succeeds and returns the plain XML-RPC
connector built over the remaining defaults. -/
theorem c9_default_protocol_xmlrpc (server : String) :
    get_connector_default_protocol = "xmlrpc" ∧
    get_connector_only_server server =
      .ok (Connector.ConnectorXMLRPC server 8069 120 none) :=
  ⟨rfl, rfl⟩

/-- C10: `get_json_connector` validates nothing and always returns a
connector: for every input it yields one of the two JSON-RPC classes over
its arguments, whereas `get_connector` rejects the identifier `jsonrpc`. -/
theorem c10_get_json_connector_total (server : String) (port timeout : Int)
    (version : Option String) (ssl : Bool) :
    (get_json_connector server port timeout version ssl =
        Connector.ConnectorJSONRPCSSL server port timeout version ∨
      get_json_connector server port timeout version ssl =
        Connector.ConnectorJSONRPC server port timeout version) ∧
    get_connector server port "jsonrpc" timeout version =
      .error ⟨unsupported_protocol_msg "jsonrpc"⟩ := by
  cases ssl
  · exact ⟨Or.inr rfl, rfl⟩
  · exact ⟨Or.inl rfl, rfl⟩

end Oerplib
